import Mathlib

/-!
Shallow embedding of the DouaneCalc Maroc customs valuation engine
(the `calculateCustoms` function of the application component) over exact
rational arithmetic, together with theorems about the properties of the
produced valuation report.
-/

namespace DouaneCalc

/-- One invoice line item, as extracted upstream. -/
structure InvoiceItem where
  description : String
  quantity : ℚ
  unitPrice : ℚ
  totalPrice : ℚ
  regime : String
  hsCode : String
  weightNet : Option ℚ := none
  packagingCaisses : Option ℚ := none
  packagingPalettes : Option ℚ := none
  deriving Repr, DecidableEq

/-- The structured invoice fed to the engine. -/
structure InvoiceData where
  invoiceNumber : String
  date : String
  currency : String
  subtotal : ℚ
  fret : ℚ
  assurance : ℚ
  incoterm : String
  totalWeightBrut : ℚ
  transportMethod : String
  originCountry : Option String := none
  items : List InvoiceItem
  deriving Repr, DecidableEq

/-- Per-HS-code result row of the report. -/
structure HSCodeBreakdown where
  hsCode : String
  description : String
  weightBrut : ℚ
  weightNet : ℚ
  fobValueMAD : ℚ
  fretValueMAD : ℚ
  assuranceValueMAD : ℚ
  aconageValueMAD : ℚ
  totalVAD : ℚ
  deriving Repr, DecidableEq

/-- Per-regime rollup of the report. -/
structure RegimeResult where
  regime : String
  regimeLibelle : String
  fobValueMAD : ℚ
  fretValueMAD : ℚ
  assuranceValueMAD : ℚ
  aconageValueMAD : ℚ
  weightBrut : ℚ
  totalVAD : ℚ
  hsCodeBreakdown : List HSCodeBreakdown
  deriving Repr, DecidableEq

/-- The full valuation report produced by the engine. -/
structure CustomsResult where
  exchangeRate : ℚ
  incoterm : String
  totalFobMAD : ℚ
  totalFretMAD : ℚ
  totalAssuranceMAD : ℚ
  totalAconageMAD : ℚ
  totalWeightBrut : ℚ
  totalVAD : ℚ
  breakdown : List RegimeResult
  deriving Repr, DecidableEq

/-- Static regime label table (REGIME_LABELS in the source). -/
def regimeLabel (r : String) : Option String :=
  if r = "010" then some "Mise à la consommation directe"
  else if r = "023" then some "ATPA sans paiement"
  else if r = "312" then some "AT d\x27emballages et contenants importés pleins"
  else if r = "311" then some "AT d\x27emballages et contenants importés vides"
  else if r = "022" then some "ATPA avec paiement"
  else if r = "040" then some "MAC en suite d\x27ATPA"
  else none

/-- Fixed port handling estimate (ACONAGE_TOTAL_MAD in the source). -/
def ACONAGE_TOTAL_MAD : ℚ := 2300

/-- Invoice total FOB converted to MAD: `data.subtotal * rate`. -/
def totalFobMAD (d : InvoiceData) (rate : ℚ) : ℚ := d.subtotal * rate

/-- Invoice freight converted to MAD: `data.fret * rate`. -/
def totalFretMAD (d : InvoiceData) (rate : ℚ) : ℚ := d.fret * rate

/-- ASCII uppercasing of a string, character by character
(the semantics of `toUpperCase()` on the Incoterm codes involved). -/
def toUpperAscii (s : String) : String := ⟨s.data.map Char.toUpper⟩

/-- CFR test: `data.incoterm?.toUpperCase() === CFR` (case-insensitive). -/
def isCFR (d : InvoiceData) : Bool := toUpperAscii d.incoterm == "CFR"

/-- Global freight-per-kilogram ratio, zero-guarded. -/
def globalFretRatio (d : InvoiceData) (rate : ℚ) : ℚ :=
  if d.totalWeightBrut > 0 then totalFretMAD d rate / d.totalWeightBrut else 0

/-- Global handling-per-kilogram ratio, zero-guarded. -/
def globalAconageRatio (d : InvoiceData) : ℚ :=
  if d.totalWeightBrut > 0 then ACONAGE_TOTAL_MAD / d.totalWeightBrut else 0

/-- Total net weight of regime-023 items (`weight023Total` in the source). -/
def weight023Total (d : InvoiceData) : ℚ :=
  ((d.items.filter (fun i => i.regime = "023")).map (fun i => i.weightNet.getD 0)).sum

/-- Regime-023 freight ratio used under CFR, zero-guarded. -/
def fretRatioFor023CFR (d : InvoiceData) (rate : ℚ) : ℚ :=
  if weight023Total d > 0 then totalFretMAD d rate / weight023Total d else 0

/-- HS grouping key: empty HS codes fall back to the UNKNOWN bucket
(`item.hsCode || UNKNOWN`, the empty string being falsy in the source). -/
def hsKeyOf (i : InvoiceItem) : String := if i.hsCode = "" then "UNKNOWN" else i.hsCode

/-- First-seen-order deduplication (`Array.from(new Set(...))` in the source). -/
def dedupFirst (l : List String) : List String :=
  l.foldl (fun acc r => if r ∈ acc then acc else acc ++ [r]) []

/-- Sum of item net weights of a group (`netWeightHS` in the source). -/
def netWeightHS (items : List InvoiceItem) : ℚ :=
  (items.map (fun i => i.weightNet.getD 0)).sum

/-- Gross weight assigned to an HS group (`weightHS` in the source):
net weight for regime 023, the packaging formula for regime 312,
net weight as fallback for any other regime. -/
def groupWeightHS (regime : String) (items : List InvoiceItem) : ℚ :=
  if regime = "023" then netWeightHS items
  else if regime = "312" then
    ((items.map (fun i => i.packagingCaisses.getD 0)).sum) * 2 +
      ((items.map (fun i => i.packagingPalettes.getD 0)).sum) * 25
  else netWeightHS items

/-- Valuation-contributing freight of an HS group
(`fretHSValueForVAD` in the source). -/
def fretHSValueForVAD (d : InvoiceData) (rate : ℚ) (regime : String) (weightHS : ℚ) : ℚ :=
  if isCFR d then
    (if regime = "023" then fretRatioFor023CFR d rate * weightHS else 0)
  else globalFretRatio d rate * weightHS

/-- Displayed freight of an HS group (`displayFretHS` in the source). -/
def displayFretHS (d : InvoiceData) (rate : ℚ) (regime : String) (weightHS : ℚ) : ℚ :=
  if isCFR d then
    (if regime = "023" then fretRatioFor023CFR d rate * weightHS
     else globalFretRatio d rate * weightHS)
  else globalFretRatio d rate * weightHS

/-- Builds one HS-code result row from a group of items sharing a key. -/
def mkHSGroup (d : InvoiceData) (rate : ℚ) (regime : String) (hsCode : String)
    (items : List InvoiceItem) : HSCodeBreakdown :=
  let fobHS := (items.map (fun i => i.totalPrice)).sum * rate
  let nw := netWeightHS items
  let weightHS := groupWeightHS regime items
  let fretVAD := fretHSValueForVAD d rate regime weightHS
  let displayFret := displayFretHS d rate regime weightHS
  let aconageHS := weightHS * globalAconageRatio d
  let assuranceHS := (fobHS + fretVAD) * 0.005
  { hsCode := hsCode
    description := (items.head?.map (fun i => i.description)).getD ""
    weightBrut := weightHS
    weightNet := nw
    fobValueMAD := fobHS
    fretValueMAD := displayFret
    assuranceValueMAD := assuranceHS
    aconageValueMAD := aconageHS
    totalVAD := fobHS + fretVAD + assuranceHS + aconageHS }

/-- HS-code groups of one regime's items, keys in first-seen order
(the `hsGroups` record of the source). -/
def hsGroupsOf (regimeItems : List InvoiceItem) : List (String × List InvoiceItem) :=
  (dedupFirst (regimeItems.map hsKeyOf)).map
    (fun k => (k, regimeItems.filter (fun i => hsKeyOf i = k)))

/-- Builds one regime's rollup from the invoice. -/
def mkRegimeResult (d : InvoiceData) (rate : ℚ) (regime : String) : RegimeResult :=
  let regimeItems := d.items.filter (fun i => i.regime = regime)
  let hsb := (hsGroupsOf regimeItems).map (fun g => mkHSGroup d rate regime g.1 g.2)
  let weightRegime := (hsb.map (fun h => h.weightBrut)).sum
  let fretRegimeForVAD :=
    if regime = "023" ∧ isCFR d then totalFretMAD d rate
    else if isCFR d then 0
    else globalFretRatio d rate * weightRegime
  { regime := regime
    regimeLibelle := (regimeLabel regime).getD "Régime Spécifique"
    fobValueMAD := (hsb.map (fun h => h.fobValueMAD)).sum
    fretValueMAD := fretRegimeForVAD
    assuranceValueMAD := (hsb.map (fun h => h.assuranceValueMAD)).sum
    aconageValueMAD := (hsb.map (fun h => h.aconageValueMAD)).sum
    weightBrut := weightRegime
    totalVAD := (hsb.map (fun h => h.totalVAD)).sum
    hsCodeBreakdown := hsb }

/-- The customs valuation engine (`calculateCustoms` in the source):
a pure transform from (invoice, exchange rate) to the valuation report. -/
def calculateCustoms (d : InvoiceData) (rate : ℚ) : CustomsResult :=
  let regimesFound := dedupFirst (d.items.map (fun i => i.regime))
  let breakdown := regimesFound.map (mkRegimeResult d rate)
  { exchangeRate := rate
    incoterm := d.incoterm
    totalFobMAD := totalFobMAD d rate
    totalFretMAD := totalFretMAD d rate
    totalAssuranceMAD := (breakdown.map (fun r => r.assuranceValueMAD)).sum
    totalAconageMAD := (breakdown.map (fun r => r.aconageValueMAD)).sum
    totalWeightBrut := d.totalWeightBrut
    totalVAD := (breakdown.map (fun r => r.totalVAD)).sum
    breakdown := breakdown }

/-! ### Concrete invoices used as witnesses and counterexamples -/

/-- The end-to-end scenario invoice of the specification. -/
def inv9 : InvoiceData :=
  { invoiceNumber := "INV9", date := "2024-01-01", currency := "EUR",
    subtotal := 1000, fret := 100, assurance := 0, incoterm := "FOB",
    totalWeightBrut := 500, transportMethod := "SEA",
    items := [{ description := "goods", quantity := 1, unitPrice := 1000,
                totalPrice := 1000, regime := "023", hsCode := "HS1",
                weightNet := some 500 }] }

/-- An invoice whose subtotal is not the sum of its item totals and whose
computed regime weight differs from the declared gross weight. -/
def dC4 : InvoiceData :=
  { invoiceNumber := "I4", date := "", currency := "EUR",
    subtotal := 5, fret := 7, assurance := 0, incoterm := "FOB",
    totalWeightBrut := 500, transportMethod := "SEA",
    items := [{ description := "goods", quantity := 1, unitPrice := 1000,
                totalPrice := 1000, regime := "023", hsCode := "A",
                weightNet := some 100 }] }

/-- A CFR invoice (lower-case Incoterm) with one dutiable 023 group and one
312 packaging group. -/
def dCFR : InvoiceData :=
  { invoiceNumber := "I2", date := "", currency := "EUR",
    subtotal := 30, fret := 100, assurance := 0, incoterm := "cfr",
    totalWeightBrut := 500, transportMethod := "SEA",
    items := [{ description := "goods", quantity := 1, unitPrice := 10,
                totalPrice := 10, regime := "023", hsCode := "A",
                weightNet := some 100 },
              { description := "pallets", quantity := 1, unitPrice := 20,
                totalPrice := 20, regime := "312", hsCode := "B",
                packagingCaisses := some 1, packagingPalettes := some 0 }] }

/-- The regime-023 HS group of `dCFR` at rate 1. -/
def hA : HSCodeBreakdown :=
  mkHSGroup dCFR 1 "023" "A"
    ((dCFR.items.filter (fun i => i.regime = "023")).filter (fun i => hsKeyOf i = "A"))

/-- The regime-312 HS group of `dCFR` at rate 1. -/
def hB : HSCodeBreakdown :=
  mkHSGroup dCFR 1 "312" "B"
    ((dCFR.items.filter (fun i => i.regime = "312")).filter (fun i => hsKeyOf i = "B"))

/-- A CFR invoice with zero declared gross weight but positive 023 net weight. -/
def dZW : InvoiceData :=
  { invoiceNumber := "IZ", date := "", currency := "EUR",
    subtotal := 1000, fret := 100, assurance := 0, incoterm := "CFR",
    totalWeightBrut := 0, transportMethod := "SEA",
    items := [{ description := "goods", quantity := 1, unitPrice := 1000,
                totalPrice := 1000, regime := "023", hsCode := "HS1",
                weightNet := some 500 }] }

/-- The single HS group of `dZW` at rate 1. -/
def hZW : HSCodeBreakdown :=
  mkHSGroup dZW 1 "023" "HS1"
    ((dZW.items.filter (fun i => i.regime = "023")).filter (fun i => hsKeyOf i = "HS1"))

/-- A CFR invoice whose regime-023 items carry no net weight at all. -/
def dC5 : InvoiceData :=
  { invoiceNumber := "I5", date := "", currency := "EUR",
    subtotal := 10, fret := 100, assurance := 0, incoterm := "CFR",
    totalWeightBrut := 500, transportMethod := "SEA",
    items := [{ description := "goods", quantity := 1, unitPrice := 10,
                totalPrice := 10, regime := "023", hsCode := "A" }] }

/-- A CIF invoice (not CFR for this engine variant) with a 023 item. -/
def dCIF : InvoiceData :=
  { invoiceNumber := "I7", date := "", currency := "EUR",
    subtotal := 200, fret := 50, assurance := 0, incoterm := "CIF",
    totalWeightBrut := 100, transportMethod := "SEA",
    items := [{ description := "goods", quantity := 1, unitPrice := 200,
                totalPrice := 200, regime := "023", hsCode := "C",
                weightNet := some 40 }] }

/-- The single HS group of `dCIF` at rate 2. -/
def hCIF : HSCodeBreakdown :=
  mkHSGroup dCIF 2 "023" "C"
    ((dCIF.items.filter (fun i => i.regime = "023")).filter (fun i => hsKeyOf i = "C"))

/-- First of a pair of invoices differing only in unused fields. -/
def d10a : InvoiceData :=
  { invoiceNumber := "I10", date := "2024-01-01", currency := "EUR",
    subtotal := 1000, fret := 100, assurance := 50, incoterm := "FOB",
    totalWeightBrut := 500, transportMethod := "SEA",
    items := [{ description := "goods", quantity := 2, unitPrice := 500,
                totalPrice := 1000, regime := "023", hsCode := "HS1",
                weightNet := some 500 }] }

/-- Second of the pair: same as `d10a` except for the insurance amount and
the item's quantity and unit price. -/
def d10b : InvoiceData :=
  { invoiceNumber := "I10", date := "2024-01-01", currency := "EUR",
    subtotal := 1000, fret := 100, assurance := 0, incoterm := "FOB",
    totalWeightBrut := 500, transportMethod := "SEA",
    items := [{ description := "goods", quantity := 4, unitPrice := 250,
                totalPrice := 1000, regime := "023", hsCode := "HS1",
                weightNet := some 500 }] }

/-- Agreement of two items on every field the engine reads
(all fields except quantity and unit price). -/
def itemAgrees (i j : InvoiceItem) : Prop :=
  i.description = j.description ∧ i.totalPrice = j.totalPrice ∧ i.regime = j.regime ∧
    i.hsCode = j.hsCode ∧ i.weightNet = j.weightNet ∧
    i.packagingCaisses = j.packagingCaisses ∧ i.packagingPalettes = j.packagingPalettes

/-- Agreement of two invoices on every field except the insurance amount,
with items agreeing pairwise on every field except quantity and unit price. -/
def invoiceAgrees (d e : InvoiceData) : Prop :=
  d.invoiceNumber = e.invoiceNumber ∧ d.date = e.date ∧ d.currency = e.currency ∧
    d.subtotal = e.subtotal ∧ d.fret = e.fret ∧ d.incoterm = e.incoterm ∧
    d.totalWeightBrut = e.totalWeightBrut ∧ d.transportMethod = e.transportMethod ∧
    d.originCountry = e.originCountry ∧ List.Forall₂ itemAgrees d.items e.items

/-! ### Helper lemmas on list sums and grouping -/

theorem sum_map_zero {α : Type} (l : List α) : (l.map (fun _ => (0 : ℚ))).sum = 0 := by
  induction l with
  | nil => simp
  | cons a t ih => simp [ih]

theorem sum_map_add {α : Type} (l : List α) (f g : α → ℚ) :
    (l.map (fun x => f x + g x)).sum = (l.map f).sum + (l.map g).sum := by
  induction l with
  | nil => simp
  | cons a t ih => simp [ih]; ring

theorem sum_map_mul_left {α : Type} (l : List α) (c : ℚ) (f : α → ℚ) :
    (l.map (fun x => c * f x)).sum = c * (l.map f).sum := by
  induction l with
  | nil => simp
  | cons a t ih => simp [ih]; ring

theorem sum_map_ite_of_not_mem (keys : List String) (x : String) (c : ℚ)
    (hx : x ∉ keys) : (keys.map (fun k => if x = k then c else 0)).sum = 0 := by
  induction keys with
  | nil => simp
  | cons k ks ih =>
    simp only [List.mem_cons, not_or] at hx
    simp [List.map_cons, if_neg hx.1, ih hx.2]

theorem sum_map_ite_of_nodup (keys : List String) (x : String) (c : ℚ)
    (hnd : keys.Nodup) (hx : x ∈ keys) :
    (keys.map (fun k => if x = k then c else 0)).sum = c := by
  induction keys with
  | nil => simp at hx
  | cons k ks ih =>
    rcases List.nodup_cons.mp hnd with ⟨hk, hks⟩
    rcases List.mem_cons.mp hx with h | h
    · subst h
      simp [sum_map_ite_of_not_mem ks x c hk]
    · have hxk : x ≠ k := fun e => hk (e ▸ h)
      simp [if_neg hxk, ih hks h]

theorem mem_dedupFirst_loop (l : List String) (acc : List String) (x : String) :
    x ∈ l.foldl (fun acc r => if r ∈ acc then acc else acc ++ [r]) acc ↔
      x ∈ acc ∨ x ∈ l := by
  induction l generalizing acc with
  | nil => simp
  | cons a t ih =>
    by_cases ha : a ∈ acc
    · simp only [List.foldl_cons, if_pos ha, ih, List.mem_cons]
      constructor
      · rintro (h | h)
        · exact Or.inl h
        · exact Or.inr (Or.inr h)
      · rintro (h | h | h)
        · exact Or.inl h
        · exact Or.inl (h ▸ ha)
        · exact Or.inr h
    · simp only [List.foldl_cons, if_neg ha, ih, List.mem_append, List.mem_singleton,
        List.mem_cons]
      tauto

theorem nodup_dedupFirst_loop (l : List String) (acc : List String) (h : acc.Nodup) :
    (l.foldl (fun acc r => if r ∈ acc then acc else acc ++ [r]) acc).Nodup := by
  induction l generalizing acc with
  | nil => simpa using h
  | cons a t ih =>
    by_cases ha : a ∈ acc
    · simpa [List.foldl_cons, if_pos ha] using ih acc h
    · rw [List.foldl_cons, if_neg ha]
      exact ih (acc ++ [a]) (by simp [List.nodup_append, h, ha])

theorem mem_dedupFirst {x : String} {l : List String} : x ∈ dedupFirst l ↔ x ∈ l := by
  simp [dedupFirst, mem_dedupFirst_loop]

theorem dedupFirst_nodup (l : List String) : (dedupFirst l).Nodup :=
  nodup_dedupFirst_loop l [] List.nodup_nil

theorem sum_partition {α : Type} (g : α → String) (f : α → ℚ)
    (keys : List String) (hnd : keys.Nodup) (l : List α)
    (hcov : ∀ a ∈ l, g a ∈ keys) :
    (keys.map (fun k => ((l.filter (fun a => g a = k)).map f).sum)).sum =
      (l.map f).sum := by
  induction l with
  | nil => simp [sum_map_zero keys]
  | cons a t ih =>
    have hat : ∀ b ∈ t, g b ∈ keys := fun b hb => hcov b (List.mem_cons_of_mem a hb)
    have hga : g a ∈ keys := hcov a (List.mem_cons_self a t)
    have step : ∀ k : String,
        (((a :: t).filter (fun b => g b = k)).map f).sum =
          (if g a = k then f a else 0) +
            ((t.filter (fun b => g b = k)).map f).sum := by
      intro k
      by_cases h : g a = k
      · simp [List.filter_cons, h]
      · simp [List.filter_cons, h]
    calc (keys.map (fun k => (((a :: t).filter (fun b => g b = k)).map f).sum)).sum
        = (keys.map (fun k => (if g a = k then f a else 0) +
            ((t.filter (fun b => g b = k)).map f).sum)).sum := by
          exact congrArg List.sum (List.map_congr_left (fun k _ => step k))
      _ = (keys.map (fun k => if g a = k then f a else 0)).sum +
            (keys.map (fun k => ((t.filter (fun b => g b = k)).map f).sum)).sum :=
          sum_map_add keys _ _
      _ = f a + (t.map f).sum := by
          rw [sum_map_ite_of_nodup keys (g a) (f a) hnd hga, ih hat]
      _ = ((a :: t).map f).sum := by simp

/-- Sum over the HS groups of a regime's items of any per-group quantity that
is itself a sum over the group's items: grouping does not lose or duplicate
items. -/
theorem sum_hsGroups (ri : List InvoiceItem) (f : InvoiceItem → ℚ) :
    ((hsGroupsOf ri).map (fun g => (g.2.map f).sum)).sum = (ri.map f).sum := by
  unfold hsGroupsOf
  rw [List.map_map]
  exact sum_partition hsKeyOf f (dedupFirst (ri.map hsKeyOf))
    (dedupFirst_nodup _) ri
    (fun a ha => mem_dedupFirst.mpr (List.mem_map_of_mem hsKeyOf ha))

/-! ### Claim theorems -/

/-- C1: for every invoice and exchange rate, each regime's total valuation
equals the sum of the total valuations of its HS-code groups, and the
report's grand total valuation equals the sum of the regime total
valuations. -/
theorem additivity (d : InvoiceData) (rate : ℚ) :
    (∀ r ∈ (calculateCustoms d rate).breakdown,
        r.totalVAD = (r.hsCodeBreakdown.map HSCodeBreakdown.totalVAD).sum) ∧
    (calculateCustoms d rate).totalVAD =
      ((calculateCustoms d rate).breakdown.map RegimeResult.totalVAD).sum := by
  constructor
  · intro r hr
    simp only [calculateCustoms, List.mem_map] at hr
    obtain ⟨reg, -, rfl⟩ := hr
    rfl
  · rfl

/-- C1 witness: the additivity equations instantiated on the concrete
end-to-end invoice. -/
theorem additivity_witness :
    (mkRegimeResult inv9 11 "023").totalVAD =
      ((mkRegimeResult inv9 11 "023").hsCodeBreakdown.map HSCodeBreakdown.totalVAD).sum :=
  (additivity inv9 11).1 (mkRegimeResult inv9 11 "023")
    (by simp [calculateCustoms, dedupFirst, inv9])

/-- C4 (amended): the report's grand FOB and freight are the invoice-level
figures converted to MAD (subtotal times rate and freight times rate), not
sums of regime-level values; the grand insurance, handling and valuation
are sums of the regime totals; the exchange rate, Incoterm and declared
total gross weight are copied through unchanged. -/
theorem report_rollup (d : InvoiceData) (rate : ℚ) :
    (calculateCustoms d rate).totalFobMAD = d.subtotal * rate ∧
    (calculateCustoms d rate).totalFretMAD = d.fret * rate ∧
    (calculateCustoms d rate).totalAssuranceMAD =
      ((calculateCustoms d rate).breakdown.map RegimeResult.assuranceValueMAD).sum ∧
    (calculateCustoms d rate).totalAconageMAD =
      ((calculateCustoms d rate).breakdown.map RegimeResult.aconageValueMAD).sum ∧
    (calculateCustoms d rate).exchangeRate = rate ∧
    (calculateCustoms d rate).incoterm = d.incoterm ∧
    (calculateCustoms d rate).totalWeightBrut = d.totalWeightBrut :=
  ⟨rfl, rfl, rfl, rfl, rfl, rfl, rfl⟩

/-- C4 counterexample: on `dC4` the report's grand FOB differs from the sum
of the regime FOB values and the grand freight differs from the sum of the
regime freight values, so the claimed rollup equalities fail. -/
theorem report_rollup_cex :
    (calculateCustoms dC4 1).totalFobMAD ≠
      ((calculateCustoms dC4 1).breakdown.map RegimeResult.fobValueMAD).sum ∧
    (calculateCustoms dC4 1).totalFretMAD ≠
      ((calculateCustoms dC4 1).breakdown.map RegimeResult.fretValueMAD).sum := by
  simp [calculateCustoms, mkRegimeResult, mkHSGroup, hsGroupsOf, dedupFirst, hsKeyOf,
    netWeightHS, groupWeightHS, fretHSValueForVAD, displayFretHS, isCFR, toUpperAscii,
    globalFretRatio, globalAconageRatio, totalFretMAD, totalFobMAD, fretRatioFor023CFR,
    weight023Total, ACONAGE_TOTAL_MAD, dC4]
  norm_num

/-- C8: every HS group built for regime 312 gets gross weight
total boxes times 2 plus total pallets times 25 (missing counts read as 0);
in particular boxes=10 and pallets=2 give gross weight 70. -/
theorem packaging_weight (d : InvoiceData) (rate : ℚ) (hs : String)
    (items : List InvoiceItem) :
    (mkHSGroup d rate "312" hs items).weightBrut =
      ((items.map (fun i => i.packagingCaisses.getD 0)).sum) * 2 +
        ((items.map (fun i => i.packagingPalettes.getD 0)).sum) * 25 ∧
    (mkHSGroup d rate "312" hs
        [{ description := "packaging", quantity := 1, unitPrice := 0,
           totalPrice := 0, regime := "312", hsCode := "P",
           packagingCaisses := some 10, packagingPalettes := some 2 }]).weightBrut = 70 := by
  constructor
  · simp [mkHSGroup, groupWeightHS]
  · simp [mkHSGroup, groupWeightHS]
    norm_num

/-- C9: the end-to-end scenario invoice (subtotal 1000, freight 100, FOB,
rate 11, gross weight 500, one regime-023 item of net weight 500) yields
group FOB 11000, freight 1100 (ratio 2.2), insurance 60.5, handling 2300,
total valuation 14460.5, and the report grand total equals that value. -/
theorem end_to_end_scenario :
    globalFretRatio inv9 11 = 2.2 ∧
    (calculateCustoms inv9 11).breakdown.map
        (fun r => r.hsCodeBreakdown.map
          (fun h => (h.fobValueMAD, h.fretValueMAD, h.assuranceValueMAD,
            h.aconageValueMAD, h.totalVAD))) =
      [[(11000, 1100, 60.5, 2300, 14460.5)]] ∧
    (calculateCustoms inv9 11).totalVAD = 14460.5 := by
  refine ⟨?_, ?_, ?_⟩ <;>
    (simp [calculateCustoms, mkRegimeResult, mkHSGroup, hsGroupsOf, dedupFirst, hsKeyOf,
      netWeightHS, groupWeightHS, fretHSValueForVAD, displayFretHS, isCFR, toUpperAscii,
      globalFretRatio, globalAconageRatio, totalFretMAD, totalFobMAD, fretRatioFor023CFR,
      weight023Total, ACONAGE_TOTAL_MAD, inv9]; norm_num)

/-- C2: under a CFR Incoterm (case-insensitive) with positive total 023 net
weight, the valuation-contributing freight of every non-023 regime's HS
groups sums to 0, and each regime-023 HS group's valuation-contributing
freight is the total freight in MAD times the group's net-weight share of
the total 023 net weight. -/
theorem cfr_exclusivity (d : InvoiceData) (rate : ℚ)
    (hCFR : isCFR d = true) (hw : 0 < weight023Total d) :
    (∀ r ∈ (calculateCustoms d rate).breakdown, r.regime ≠ "023" →
      (r.hsCodeBreakdown.map
        (fun h => fretHSValueForVAD d rate r.regime h.weightBrut)).sum = 0) ∧
    (∀ r ∈ (calculateCustoms d rate).breakdown, r.regime = "023" →
      ∀ h ∈ r.hsCodeBreakdown,
        fretHSValueForVAD d rate r.regime h.weightBrut =
          totalFretMAD d rate * (h.weightNet / weight023Total d)) := by
  constructor
  · intro r hr hne
    simp only [calculateCustoms, List.mem_map] at hr
    obtain ⟨reg, -, rfl⟩ := hr
    simp only [mkRegimeResult] at hne ⊢
    simp [fretHSValueForVAD, hCFR, hne, Function.comp_def, sum_map_zero]
  · intro r hr hreg
    simp only [calculateCustoms, List.mem_map] at hr
    obtain ⟨reg, -, rfl⟩ := hr
    simp only [mkRegimeResult] at hreg
    subst hreg
    intro h hh
    simp only [mkRegimeResult, List.mem_map] at hh
    obtain ⟨g, -, rfl⟩ := hh
    simp only [mkRegimeResult, mkHSGroup, fretHSValueForVAD, groupWeightHS, hCFR,
      if_true, if_pos rfl]
    rw [fretRatioFor023CFR, if_pos hw, div_mul_eq_mul_div, mul_div_assoc]

/-- C2 witness: the 023 share formula instantiated on the concrete CFR
invoice `dCFR`. -/
theorem cfr_exclusivity_witness :
    fretHSValueForVAD dCFR 1 (mkRegimeResult dCFR 1 "023").regime hA.weightBrut =
      totalFretMAD dCFR 1 * (hA.weightNet / weight023Total dCFR) :=
  ((cfr_exclusivity dCFR 1 (by decide) (by simp [weight023Total, dCFR])).2
    (mkRegimeResult dCFR 1 "023")
    (by simp [calculateCustoms, dedupFirst, dCFR]) rfl hA
    (by simp [mkRegimeResult, hsGroupsOf, dedupFirst, hA, dCFR, hsKeyOf]))

/-- C3 (amended): with zero declared gross weight the global freight and
handling ratios are 0 and every HS group's handling contribution is 0;
every group's freight contributions (displayed and valuation) are also 0,
except regime-023 groups under CFR, whose freight comes from the 023
net-weight ratio and is unaffected by the gross weight. -/
theorem zero_weight_safety (d : InvoiceData) (rate : ℚ)
    (h0 : d.totalWeightBrut = 0) :
    globalFretRatio d rate = 0 ∧ globalAconageRatio d = 0 ∧
    ∀ r ∈ (calculateCustoms d rate).breakdown, ∀ h ∈ r.hsCodeBreakdown,
      h.aconageValueMAD = 0 ∧
      (¬(isCFR d = true ∧ r.regime = "023") →
        h.fretValueMAD = 0 ∧ fretHSValueForVAD d rate r.regime h.weightBrut = 0) := by
  have hfr : globalFretRatio d rate = 0 := by simp [globalFretRatio, h0]
  have hac : globalAconageRatio d = 0 := by simp [globalAconageRatio, h0]
  refine ⟨hfr, hac, ?_⟩
  intro r hr h hh
  simp only [calculateCustoms, List.mem_map] at hr
  obtain ⟨reg, -, rfl⟩ := hr
  simp only [mkRegimeResult, List.mem_map] at hh
  obtain ⟨g, -, rfl⟩ := hh
  constructor
  · simp [mkHSGroup, hac]
  · intro hnc
    simp only [mkRegimeResult] at hnc
    by_cases hc : isCFR d = true
    · have hne : reg ≠ "023" := fun hreg => hnc ⟨hc, hreg⟩
      simp [mkRegimeResult, mkHSGroup, displayFretHS, fretHSValueForVAD, hc, hne, hfr]
    · have hcf : isCFR d = false := by simpa using hc
      simp [mkRegimeResult, mkHSGroup, displayFretHS, fretHSValueForVAD, hcf, hfr]

/-- C3 counterexample: on the zero-gross-weight CFR invoice `dZW` the 023
group's freight contribution is 100, not 0, refuting the claim that all
group freight contributions vanish when the gross weight is 0. -/
theorem zero_weight_safety_cex :
    dZW.totalWeightBrut = 0 ∧
    mkRegimeResult dZW 1 "023" ∈ (calculateCustoms dZW 1).breakdown ∧
    hZW ∈ (mkRegimeResult dZW 1 "023").hsCodeBreakdown ∧
    hZW.fretValueMAD = 100 ∧
    fretHSValueForVAD dZW 1 "023" hZW.weightBrut = 100 := by
  refine ⟨rfl, ?_, ?_, ?_, ?_⟩
  · simp [calculateCustoms, dedupFirst, dZW]
  · simp [mkRegimeResult, hsGroupsOf, dedupFirst, hZW, dZW, hsKeyOf]
  · simp [hZW, mkHSGroup, displayFretHS, fretHSValueForVAD, isCFR, toUpperAscii,
      groupWeightHS, netWeightHS, fretRatioFor023CFR, weight023Total, totalFretMAD,
      dZW, hsKeyOf]
  · simp [hZW, mkHSGroup, fretHSValueForVAD, isCFR, toUpperAscii,
      groupWeightHS, netWeightHS, fretRatioFor023CFR, weight023Total, totalFretMAD,
      dZW, hsKeyOf]

/-- C3 witness for the amended theorem: the zero ratios on the concrete
zero-gross-weight invoice. -/
theorem zero_weight_safety_witness :
    globalFretRatio dZW 1 = 0 ∧ globalAconageRatio dZW = 0 :=
  ⟨(zero_weight_safety dZW 1 rfl).1, (zero_weight_safety dZW 1 rfl).2.1⟩

/-- C5 (amended): each regime's freight rollup equals the sum of its HS
groups' valuation-contributing freight, provided that under CFR the total
023 net weight is positive or the freight is zero; without that proviso the
CFR 023 rollup is the full freight while its groups sum to 0. Under CFR
every non-023 regime's rollup is 0. -/
theorem regime_fret_rollup (d : InvoiceData) (rate : ℚ)
    (hdeg : isCFR d = true → 0 < weight023Total d ∨ totalFretMAD d rate = 0) :
    ∀ r ∈ (calculateCustoms d rate).breakdown,
      r.fretValueMAD =
        (r.hsCodeBreakdown.map
          (fun h => fretHSValueForVAD d rate r.regime h.weightBrut)).sum ∧
      (isCFR d = true → r.regime ≠ "023" → r.fretValueMAD = 0) := by
  intro r hr
  simp only [calculateCustoms, List.mem_map] at hr
  obtain ⟨reg, -, rfl⟩ := hr
  by_cases hc : isCFR d = true
  · by_cases hreg : reg = "023"
    · subst hreg
      refine ⟨?_, fun _ hne => absurd rfl hne⟩
      have hreg2 : (mkRegimeResult d rate "023").regime = "023" := rfl
      have hbd : (mkRegimeResult d rate "023").hsCodeBreakdown =
          (hsGroupsOf (d.items.filter (fun i => i.regime = "023"))).map
            (fun g => mkHSGroup d rate "023" g.1 g.2) := rfl
      rw [hreg2, hbd, List.map_map]
      have hfun : ((fun h : HSCodeBreakdown => fretHSValueForVAD d rate "023" h.weightBrut) ∘
          (fun g : String × List InvoiceItem => mkHSGroup d rate "023" g.1 g.2)) =
          fun g => fretRatioFor023CFR d rate * netWeightHS g.2 := by
        funext g
        simp [Function.comp_def, mkHSGroup, fretHSValueForVAD, groupWeightHS, hc]
      rw [hfun, sum_map_mul_left]
      have hgrp : ((hsGroupsOf (d.items.filter (fun i => i.regime = "023"))).map
          (fun g => netWeightHS g.2)).sum = weight023Total d := by
        simp only [netWeightHS]
        exact sum_hsGroups _ _
      rw [hgrp]
      have hl : (mkRegimeResult d rate "023").fretValueMAD = totalFretMAD d rate := by
        simp [mkRegimeResult, hc]
      rw [hl]
      rcases hdeg hc with hw | hf0
      · simp only [fretRatioFor023CFR]
        rw [if_pos hw, div_mul_cancel₀ _ (ne_of_gt hw)]
      · have hz : fretRatioFor023CFR d rate = 0 := by
          simp [fretRatioFor023CFR, hf0]
        rw [hf0, hz, zero_mul]
    · refine ⟨?_, fun _ _ => ?_⟩
      · simp [mkRegimeResult, List.map_map, Function.comp_def, fretHSValueForVAD,
          hc, hreg, sum_map_zero]
      · simp [mkRegimeResult, hc, hreg]
  · have hcf : isCFR d = false := by simpa using hc
    refine ⟨?_, fun hct _ => absurd hct hc⟩
    simp [mkRegimeResult, List.map_map, Function.comp_def, fretHSValueForVAD,
      hcf, sum_map_mul_left]

/-- C5 counterexample: on the CFR invoice `dC5`, whose 023 items carry no
net weight, the 023 regime's freight rollup is 100 while its HS groups'
valuation-contributing freight sums to 0. -/
theorem regime_fret_rollup_cex :
    mkRegimeResult dC5 1 "023" ∈ (calculateCustoms dC5 1).breakdown ∧
    (mkRegimeResult dC5 1 "023").fretValueMAD = 100 ∧
    ((mkRegimeResult dC5 1 "023").hsCodeBreakdown.map
      (fun h => fretHSValueForVAD dC5 1 (mkRegimeResult dC5 1 "023").regime
        h.weightBrut)).sum = 0 ∧
    (mkRegimeResult dC5 1 "023").fretValueMAD ≠
      ((mkRegimeResult dC5 1 "023").hsCodeBreakdown.map
        (fun h => fretHSValueForVAD dC5 1 (mkRegimeResult dC5 1 "023").regime
          h.weightBrut)).sum := by
  have h1 : (mkRegimeResult dC5 1 "023").fretValueMAD = 100 := by
    simp [mkRegimeResult, isCFR, toUpperAscii, totalFretMAD, dC5]
  have h2 : ((mkRegimeResult dC5 1 "023").hsCodeBreakdown.map
      (fun h => fretHSValueForVAD dC5 1 (mkRegimeResult dC5 1 "023").regime
        h.weightBrut)).sum = 0 := by
    simp [mkRegimeResult, mkHSGroup, hsGroupsOf, dedupFirst, hsKeyOf, dC5,
      fretHSValueForVAD, isCFR, toUpperAscii, fretRatioFor023CFR, weight023Total,
      groupWeightHS, netWeightHS]
  refine ⟨?_, h1, h2, ?_⟩
  · simp [calculateCustoms, dedupFirst, dC5]
  · rw [h1, h2]
    norm_num

/-- C5 witness for the amended theorem: the rollup equality on the concrete
non-CFR end-to-end invoice. -/
theorem regime_fret_rollup_witness :
    (mkRegimeResult inv9 11 "023").fretValueMAD =
      ((mkRegimeResult inv9 11 "023").hsCodeBreakdown.map
        (fun h => fretHSValueForVAD inv9 11 (mkRegimeResult inv9 11 "023").regime
          h.weightBrut)).sum :=
  (regime_fret_rollup inv9 11 (fun h => absurd h (by decide))
    (mkRegimeResult inv9 11 "023")
    (by simp [calculateCustoms, dedupFirst, inv9])).1

/-- Display freight and valuation freight of a group coincide unless the
invoice is CFR and the group's regime is not 023. -/
theorem display_eq_vad (d : InvoiceData) (rate : ℚ) (reg : String) (w : ℚ)
    (hnc : ¬(isCFR d = true ∧ reg ≠ "023")) :
    displayFretHS d rate reg w = fretHSValueForVAD d rate reg w := by
  by_cases hcfr : isCFR d = true
  · have hreg : reg = "023" := by
      by_contra hne
      exact hnc ⟨hcfr, hne⟩
    simp [displayFretHS, fretHSValueForVAD, hcfr, hreg]
  · have hcf : isCFR d = false := by simpa using hcfr
    simp [displayFretHS, fretHSValueForVAD, hcf]

/-- C6 (amended): every HS group's stored total valuation is FOB plus
valuation-contributing freight plus insurance plus handling; it equals the
sum of the four stored fields (with the displayed freight) exactly when the
displayed freight is the valuation freight, i.e. except for non-023 groups
of a CFR invoice. -/
theorem hsgroup_total (d : InvoiceData) (rate : ℚ) :
    ∀ r ∈ (calculateCustoms d rate).breakdown, ∀ h ∈ r.hsCodeBreakdown,
      h.totalVAD = h.fobValueMAD + fretHSValueForVAD d rate r.regime h.weightBrut +
          h.assuranceValueMAD + h.aconageValueMAD ∧
      (¬(isCFR d = true ∧ r.regime ≠ "023") →
        h.totalVAD = h.fobValueMAD + h.fretValueMAD + h.assuranceValueMAD +
          h.aconageValueMAD) := by
  intro r hr h hh
  simp only [calculateCustoms, List.mem_map] at hr
  obtain ⟨reg, -, rfl⟩ := hr
  simp only [mkRegimeResult, List.mem_map] at hh
  obtain ⟨g, -, rfl⟩ := hh
  constructor
  · rfl
  · intro hnc
    simp only [mkRegimeResult] at hnc
    simp only [mkHSGroup, display_eq_vad d rate reg _ hnc]

/-- C6 counterexample: on the CFR invoice `dCFR` the 312 group's stored
total valuation (29.3) differs from the sum of its four stored monetary
fields (29.7), because the stored freight is display-only. -/
theorem hsgroup_total_cex :
    mkRegimeResult dCFR 1 "312" ∈ (calculateCustoms dCFR 1).breakdown ∧
    hB ∈ (mkRegimeResult dCFR 1 "312").hsCodeBreakdown ∧
    hB.totalVAD ≠
      hB.fobValueMAD + hB.fretValueMAD + hB.assuranceValueMAD + hB.aconageValueMAD := by
  refine ⟨?_, ?_, ?_⟩
  · simp [calculateCustoms, dedupFirst, dCFR]
  · simp [mkRegimeResult, hsGroupsOf, dedupFirst, hB, dCFR, hsKeyOf]
  · simp [hB, mkHSGroup, displayFretHS, fretHSValueForVAD, isCFR, toUpperAscii,
      groupWeightHS, netWeightHS, fretRatioFor023CFR, weight023Total, globalFretRatio,
      globalAconageRatio, totalFretMAD, ACONAGE_TOTAL_MAD, dCFR, hsKeyOf]

/-- C6 witness for the amended theorem: the four-term decomposition on the
concrete 023 group of the CFR invoice `dCFR`. -/
theorem hsgroup_total_witness :
    hA.totalVAD = hA.fobValueMAD +
        fretHSValueForVAD dCFR 1 (mkRegimeResult dCFR 1 "023").regime hA.weightBrut +
        hA.assuranceValueMAD + hA.aconageValueMAD :=
  (hsgroup_total dCFR 1 (mkRegimeResult dCFR 1 "023")
    (by simp [calculateCustoms, dedupFirst, dCFR]) hA
    (by simp [mkRegimeResult, hsGroupsOf, dedupFirst, hA, dCFR, hsKeyOf])).1

/-- C7: under any non-CFR Incoterm (CIF, EXW, FOB, ...), every HS group's
valuation-contributing freight equals its displayed freight, which is the
global freight ratio times the group's gross weight. -/
theorem non_cfr_freight (d : InvoiceData) (rate : ℚ) (hn : isCFR d = false) :
    ∀ r ∈ (calculateCustoms d rate).breakdown, ∀ h ∈ r.hsCodeBreakdown,
      fretHSValueForVAD d rate r.regime h.weightBrut = h.fretValueMAD ∧
      h.fretValueMAD = globalFretRatio d rate * h.weightBrut := by
  intro r hr h hh
  simp only [calculateCustoms, List.mem_map] at hr
  obtain ⟨reg, -, rfl⟩ := hr
  simp only [mkRegimeResult, List.mem_map] at hh
  obtain ⟨g, -, rfl⟩ := hh
  simp [mkRegimeResult, mkHSGroup, fretHSValueForVAD, displayFretHS, hn]

/-- C7 witness: the freight equalities on the concrete CIF invoice. -/
theorem non_cfr_freight_witness :
    fretHSValueForVAD dCIF 2 (mkRegimeResult dCIF 2 "023").regime hCIF.weightBrut =
        hCIF.fretValueMAD ∧
      hCIF.fretValueMAD = globalFretRatio dCIF 2 * hCIF.weightBrut :=
  non_cfr_freight dCIF 2 (by decide) (mkRegimeResult dCIF 2 "023")
    (by simp [calculateCustoms, dedupFirst, dCIF]) hCIF
    (by simp [mkRegimeResult, hsGroupsOf, dedupFirst, hCIF, dCIF, hsKeyOf])

/-! ### Congruence machinery for the noninterference claim -/

theorem agrees_map_eq {β : Type} {l l' : List InvoiceItem}
    (h : List.Forall₂ itemAgrees l l') (f : InvoiceItem → β)
    (hf : ∀ a b, itemAgrees a b → f a = f b) : l.map f = l'.map f := by
  induction h with
  | nil => rfl
  | cons hab _ ih => simp [List.map_cons, hf _ _ hab, ih]

theorem agrees_filter {l l' : List InvoiceItem}
    (h : List.Forall₂ itemAgrees l l') (p : InvoiceItem → Bool)
    (hp : ∀ a b, itemAgrees a b → p a = p b) :
    List.Forall₂ itemAgrees (l.filter p) (l'.filter p) := by
  induction h with
  | nil => exact List.Forall₂.nil
  | @cons a b l₁ l₂ hab htl ih =>
    by_cases hpa : p a = true
    · rw [List.filter_cons_of_pos hpa, List.filter_cons_of_pos ((hp a b hab) ▸ hpa)]
      exact List.Forall₂.cons hab ih
    · rw [List.filter_cons_of_neg (by simpa using hpa),
        List.filter_cons_of_neg (by rw [← hp a b hab]; simpa using hpa)]
      exact ih

theorem agrees_head_description {l l' : List InvoiceItem}
    (h : List.Forall₂ itemAgrees l l') :
    (l.head?.map (fun i => i.description)).getD "" =
      (l'.head?.map (fun i => i.description)).getD "" := by
  cases h with
  | nil => rfl
  | cons hab _ => simp [hab.1]

/-- C10: any two invoices that differ only in the insurance amount and in
items' quantity or unit price (all other fields equal) produce identical
valuation reports for the same exchange rate — those inputs are never read
by the calculation. -/
theorem noninterference (d e : InvoiceData) (rate : ℚ) (h : invoiceAgrees d e) :
    calculateCustoms d rate = calculateCustoms e rate := by
  obtain ⟨hn, hdt, hcur, hs, hf, hi, hw, htr, ho, hitems⟩ := h
  have hTFo : totalFobMAD d rate = totalFobMAD e rate := by
    simp [totalFobMAD, hs]
  have hTF : totalFretMAD d rate = totalFretMAD e rate := by
    simp [totalFretMAD, hf]
  have hCFR : isCFR d = isCFR e := by
    simp [isCFR, hi]
  have hGFR : globalFretRatio d rate = globalFretRatio e rate := by
    simp [globalFretRatio, hw, hTF]
  have hGAR : globalAconageRatio d = globalAconageRatio e := by
    simp [globalAconageRatio, hw]
  have hW023 : weight023Total d = weight023Total e := by
    unfold weight023Total
    have hfil := agrees_filter hitems (fun i => decide (i.regime = "023"))
      (fun a b hab => by simp only [hab.2.2.1])
    exact congrArg List.sum
      (agrees_map_eq hfil _ (fun a b hab => by simp only [hab.2.2.2.2.1]))
  have hRatio023 : fretRatioFor023CFR d rate = fretRatioFor023CFR e rate := by
    simp [fretRatioFor023CFR, hW023, hTF]
  have hGroup : ∀ (reg k : String) (l l' : List InvoiceItem),
      List.Forall₂ itemAgrees l l' →
      mkHSGroup d rate reg k l = mkHSGroup e rate reg k l' := by
    intro reg k l l' hll
    have hfob : (l.map (fun i => i.totalPrice)).sum =
        (l'.map (fun i => i.totalPrice)).sum :=
      congrArg List.sum (agrees_map_eq hll _ (fun a b hab => by simp only [hab.2.1]))
    have hnw : netWeightHS l = netWeightHS l' :=
      congrArg List.sum (agrees_map_eq hll _ (fun a b hab => by simp only [hab.2.2.2.2.1]))
    have hcs : (l.map (fun i => i.packagingCaisses.getD 0)).sum =
        (l'.map (fun i => i.packagingCaisses.getD 0)).sum :=
      congrArg List.sum (agrees_map_eq hll _ (fun a b hab => by simp only [hab.2.2.2.2.2.1]))
    have hps : (l.map (fun i => i.packagingPalettes.getD 0)).sum =
        (l'.map (fun i => i.packagingPalettes.getD 0)).sum :=
      congrArg List.sum (agrees_map_eq hll _ (fun a b hab => by simp only [hab.2.2.2.2.2.2]))
    have hwHS : groupWeightHS reg l = groupWeightHS reg l' := by
      unfold groupWeightHS
      rw [hnw, hcs, hps]
    have hdesc : (l.head?.map (fun i => i.description)).getD "" =
        (l'.head?.map (fun i => i.description)).getD "" :=
      agrees_head_description hll
    have hFV : ∀ w : ℚ, fretHSValueForVAD d rate reg w = fretHSValueForVAD e rate reg w := by
      intro w
      simp [fretHSValueForVAD, hCFR, hRatio023, hGFR]
    have hDF : ∀ w : ℚ, displayFretHS d rate reg w = displayFretHS e rate reg w := by
      intro w
      simp [displayFretHS, hCFR, hRatio023, hGFR]
    simp only [mkHSGroup]
    rw [hfob, hnw, hwHS, hdesc, hFV, hDF, hGAR]
  have hRegime : ∀ reg : String, mkRegimeResult d rate reg = mkRegimeResult e rate reg := by
    intro reg
    have hfil : List.Forall₂ itemAgrees
        (d.items.filter (fun i => i.regime = reg))
        (e.items.filter (fun i => i.regime = reg)) :=
      agrees_filter hitems _ (fun a b hab => by simp only [hab.2.2.1])
    have hkey : ∀ a b, itemAgrees a b → hsKeyOf a = hsKeyOf b := by
      intro a b hab
      simp [hsKeyOf, hab.2.2.2.1]
    have hkeys : (d.items.filter (fun i => i.regime = reg)).map hsKeyOf =
        (e.items.filter (fun i => i.regime = reg)).map hsKeyOf :=
      agrees_map_eq hfil _ hkey
    have hhsb : (hsGroupsOf (d.items.filter (fun i => i.regime = reg))).map
        (fun g => mkHSGroup d rate reg g.1 g.2) =
        (hsGroupsOf (e.items.filter (fun i => i.regime = reg))).map
          (fun g => mkHSGroup e rate reg g.1 g.2) := by
      unfold hsGroupsOf
      rw [hkeys, List.map_map, List.map_map]
      refine List.map_congr_left (fun k _ => ?_)
      exact hGroup reg k _ _
        (agrees_filter hfil _ (fun a b hab => by simp only [hkey a b hab]))
    simp only [mkRegimeResult]
    rw [hhsb, hCFR, hTF, hGFR]
  have hregs : dedupFirst (d.items.map (fun i => i.regime)) =
      dedupFirst (e.items.map (fun i => i.regime)) := by
    rw [agrees_map_eq hitems _ (fun a b hab => by simp only [hab.2.2.1])]
  simp only [calculateCustoms]
  rw [hregs, hi, hw, hTFo, hTF, funext hRegime]

/-- C10 witness: the two concrete invoices `d10a` and `d10b`, differing only
in insurance amount, quantity and unit price, yield identical reports. -/
theorem noninterference_witness : calculateCustoms d10a 11 = calculateCustoms d10b 11 :=
  noninterference d10a d10b 11
    ⟨rfl, rfl, rfl, rfl, rfl, rfl, rfl, rfl, rfl, by simp [d10a, d10b, itemAgrees]⟩

end DouaneCalc
